import Mathlib

/-!
Verification development for the `ts_hexapod` repository.

Shallow embedding of the two algorithmic cores:
* `LookupTable` / `get_correction` (src/python/lsst/ts/hexapod/lookup_table.py),
  including the load-time parsing and validation performed by
  `LookupTable.__init__`;
* `MockMTHexapodController` command dispatch, state machine and telemetry
  sampler (src/python/lsst/ts/hexapod/mock_controller.py).

Python floats are modelled as rationals (ℚ); fallible Python code (code that
can raise) is modelled with `Except String` results, or, for command handlers
that mutate controller state before a possible raise, as a pair of the state
reached so far and an optional exception.  The NaN sentinel used for the
staged target position `(math.nan,)*6` is modelled as `Option Vec6` with
`none` standing for the all-NaN "unset" value (the source only ever inspects
it through `math.isfinite(self.set_position[0])`).
-/

namespace TsHexapod

instance {ε α : Type} [DecidableEq ε] [DecidableEq α] : DecidableEq (Except ε α) := fun a b =>
  match a, b with
  | .ok x, .ok y =>
    if h : x = y then isTrue (by rw [h]) else isFalse (fun c => h (Except.ok.inj c))
  | .error x, .error y =>
    if h : x = y then isTrue (by rw [h]) else isFalse (fun c => h (Except.error.inj c))
  | .ok _, .error _ => isFalse (fun c => Except.noConfusion c)
  | .error _, .ok _ => isFalse (fun c => Except.noConfusion c)

/-- A six-element correction / pose vector `(x, y, z, u, v, w)`, modelling the
`numpy` float arrays of length 6 used by `lookup_table.py` and the pose tuples
of `mock_controller.py`. -/
structure Vec6 where
  x : ℚ
  y : ℚ
  z : ℚ
  u : ℚ
  v : ℚ
  w : ℚ
deriving DecidableEq, Repr

instance : Inhabited Vec6 := ⟨⟨0, 0, 0, 0, 0, 0⟩⟩

/-- Elementwise addition (numpy `+` on 6-element arrays). -/
instance : Add Vec6 := ⟨fun a b => ⟨a.x + b.x, a.y + b.y, a.z + b.z, a.u + b.u, a.v + b.v, a.w + b.w⟩⟩

/-- Elementwise subtraction (numpy `-` on 6-element arrays). -/
instance : Sub Vec6 := ⟨fun a b => ⟨a.x - b.x, a.y - b.y, a.z - b.z, a.u - b.u, a.v - b.v, a.w - b.w⟩⟩

/-- Scalar multiplication (numpy `scalar * array`). -/
instance : SMul ℚ Vec6 := ⟨fun f a => ⟨f * a.x, f * a.y, f * a.z, f * a.u, f * a.v, f * a.w⟩⟩

/-- A loaded lookup table: `input_name`, `input_data` and `corr_data`
attributes of `LookupTable` (lookup_table.py).  `input_name` is `none` as long
as no header line has been seen (Python initialises it to `None`). -/
structure LookupTable where
  input_name : Option String
  input_data : List ℚ
  corr_data : List Vec6
deriving DecidableEq, Repr

/-- Python list indexing `l[i]` for `i : Int`: a negative index counts from the
end; an index that is still out of range raises `IndexError`. -/
def pyGet {α : Type} [Inhabited α] (l : List α) (i : Int) : Except String α :=
  let j : Int := if i < 0 then i + l.length else i
  if 0 ≤ j ∧ j < (l.length : Int) then .ok (l.getD j.toNat default)
  else .error "IndexError: list index out of range"

/-- `bisect.bisect_right l v`: for the sorted lists this program feeds it, the
documented result is the insertion point that comes after (to the right of)
any entries equal to `v`, i.e. the number of leading elements `≤ v`. -/
def bisect_right (l : List ℚ) (v : ℚ) : Nat :=
  (l.takeWhile (fun y => decide (y ≤ v))).length

/-- The `ValueError` message raised by `get_correction` for an out-of-range
query; it names both table bounds. -/
def out_of_range_message (input_value first last : ℚ) : String :=
  s!"input_value {input_value} out of range [{first}, {last}]"

/-- `LookupTable.get_correction` (lookup_table.py lines 123-156), statement by
statement: range check against `input_data[0]` and `input_data[-1]`,
`ind = bisect.bisect_right(input_data, input_value) - 1`, the end-of-table
adjustment, then `row + frac_value * (next_row - row)`.  The division raises
`ZeroDivisionError` when the two breakpoints coincide, exactly as Python float
division by zero does. -/
def get_correction (t : LookupTable) (input_value : ℚ) : Except String Vec6 :=
  match pyGet t.input_data 0, pyGet t.input_data (-1) with
  | .ok first, .ok last =>
    if input_value < first ∨ input_value > last then
      .error (out_of_range_message input_value first last)
    else
      let ind0 : Int := (bisect_right t.input_data input_value : Int) - 1
      let ind : Int := if ind0 = (t.input_data.length : Int) - 1 then ind0 - 1 else ind0
      match pyGet t.input_data ind, pyGet t.input_data (ind + 1) with
      | .ok x0, .ok x1 =>
        if x1 - x0 = 0 then .error "ZeroDivisionError: float division by zero"
        else
          let frac_value := (input_value - x0) / (x1 - x0)
          match pyGet t.corr_data ind, pyGet t.corr_data (ind + 1) with
          | .ok row, .ok next_row => .ok (row + frac_value • (next_row - row))
          | .error e, _ => .error e
          | _, .error e => .error e
      | .error e, _ => .error e
      | _, .error e => .error e
  | .error e, _ => .error e
  | _, .error e => .error e

/-! ### Load-time parsing (`LookupTable.__init__`)

A file is modelled as its list of lines (each line a `String`).  The string
manipulation used by the source (`str.strip`, `str.split()`, `str.lower`,
`line[0] == "#"`, `float(entry)`) is modelled on the underlying character
lists. -/

/-- Python `str.strip()`: remove leading and trailing whitespace. -/
def pyStrip (cs : List Char) : List Char :=
  ((cs.dropWhile Char.isWhitespace).reverse.dropWhile Char.isWhitespace).reverse

/-- Helper for `pySplitWhitespace`: `acc` holds the characters of the token
currently being read, in reverse order. -/
def pySplitWhitespaceAux : List Char → List Char → List String
  | [], acc => if acc.isEmpty then [] else [String.mk acc.reverse]
  | c :: rest, acc =>
    if c.isWhitespace then
      if acc.isEmpty then pySplitWhitespaceAux rest []
      else String.mk acc.reverse :: pySplitWhitespaceAux rest []
    else pySplitWhitespaceAux rest (c :: acc)

/-- Python `str.split()` with no argument: split on runs of whitespace,
discarding empty fields. -/
def pySplitWhitespace (cs : List Char) : List String := pySplitWhitespaceAux cs []

/-- Python `str.lower()` on the ASCII names appearing in calibration files. -/
def pyLower (s : String) : String := String.mk (s.data.map Char.toLower)

/-- Digit characters to the natural number they denote. -/
def digitsToNat (cs : List Char) : Nat :=
  cs.foldl (fun n c => n * 10 + (c.toNat - 48)) 0

/-- Python `float(entry)` on the plain decimal literals used in calibration
files: optional sign, integer digits, optional fractional digits; at least one
digit overall.  Returns `none` where Python `float` raises `ValueError`. -/
def parseFloat (s : String) : Option ℚ :=
  let cs := s.data
  let signAndRest : Bool × List Char :=
    match cs with
    | '-' :: rest => (true, rest)
    | '+' :: rest => (false, rest)
    | _ => (false, cs)
  let neg := signAndRest.1
  let cs1 := signAndRest.2
  let intPart := cs1.takeWhile Char.isDigit
  let rest1 := cs1.dropWhile Char.isDigit
  let signed : ℚ → Option ℚ := fun q => some (if neg then -q else q)
  match rest1 with
  | [] => if intPart.isEmpty then none else signed (digitsToNat intPart)
  | '.' :: rest2 =>
    let fracPart := rest2.takeWhile Char.isDigit
    let rest3 := rest2.dropWhile Char.isDigit
    if ¬rest3.isEmpty then none
    else if intPart.isEmpty ∧ fracPart.isEmpty then none
    else signed ((digitsToNat intPart : ℚ) + (digitsToNat fracPart : ℚ) / (10 ^ fracPart.length : ℚ))
  | _ => none

/-- Accumulator of the `__init__` read loop: `self.input_name`, `input_data`
and `corr_data` as built up so far. -/
structure LoadState where
  input_name : Option String
  input_data : List ℚ
  corr_data : List Vec6
deriving DecidableEq, Repr

/-- One iteration of the `for line in f` loop of `LookupTable.__init__`
(lookup_table.py lines 81-113): strip, skip blanks and `#` comments, check the
7-field count, then either validate the header line or parse a data line. -/
def processLine (st : LoadState) (line : String) : Except String LoadState :=
  let stripped := pyStrip line.data
  if stripped.isEmpty then .ok st
  else if stripped.headD ' ' = '#' then .ok st
  else
    let entries := pySplitWhitespace stripped
    if entries.length ≠ 7 then
      .error s!"Line {line} has {entries.length} entries instead of 7"
    else
      match st.input_name with
      | none =>
        let iname := pyLower (entries.headD "")
        if iname ≠ "elevation" ∧ iname ≠ "azimuth" ∧ iname ≠ "temperature" then
          .error "Input name must be one of elevation, azimuth, or temperature (case blind)"
        else
          let corr_names := (entries.drop 1).map pyLower
          if corr_names ≠ ["x", "y", "z", "u", "v", "w"] then
            .error "Column names must be x, y, z, u, v, w (case blind)"
          else .ok { st with input_name := some iname }
      | some _ =>
        match entries.mapM parseFloat with
        | none => .error "ValueError: could not convert string to float"
        | some data =>
          .ok { st with
                input_data := st.input_data ++ [data.getD 0 0],
                corr_data := st.corr_data ++
                  [⟨data.getD 1 0, data.getD 2 0, data.getD 3 0,
                    data.getD 4 0, data.getD 5 0, data.getD 6 0⟩] }

/-- `LookupTable.__init__` (lookup_table.py lines 75-121): run the read loop
over all lines, then reject the file iff `input_data != sorted(input_data)`
(Python `sorted` is ascending, modelled by `List.insertionSort (· ≤ ·)`). -/
def loadLookupTable (lines : List String) : Except String LookupTable :=
  match lines.foldlM processLine ⟨none, [], []⟩ with
  | .error e => .error e
  | .ok st =>
    if st.input_data ≠ List.insertionSort (· ≤ ·) st.input_data then
      .error "data not monotonically increasing"
    else .ok ⟨st.input_name, st.input_data, st.corr_data⟩

/-! ### Mock controller (`mock_controller.py`)

States and substates come from `lsst.ts.idl.enums.Hexapod` (an external
library); only the values the mock controller actually stores are modelled.
`set_state` stores `0` in a substate field when its owning state is not
active; that neutral value is the `zero` constructor. -/

/-- `Hexapod.ControllerState` values used by the mock controller. -/
inductive CtrlState
  | offline
  | standby
  | disabled
  | enabled
  | fault
deriving DecidableEq, Repr

/-- Offline substate: `Hexapod.OfflineSubstate.AVAILABLE` or the neutral `0`
stored when the state is not OFFLINE. -/
inductive OfflineSub
  | zero
  | available
deriving DecidableEq, Repr

/-- Enabled substate: `STATIONARY`, `MOVING_POINT_TO_POINT`, or the neutral
`0` stored when the state is not ENABLED. -/
inductive EnabledSub
  | zero
  | stationary
  | movingPointToPoint
deriving DecidableEq, Repr

/-- `enums.CommandCode` (enums.py lines 32-45). -/
inductive CommandCode
  | SET_STATE
  | SET_ENABLED_SUBSTATE
  | POSITION_SET
  | SET_PIVOTPOINT
  | CONFIG_ACCEL
  | CONFIG_VEL
  | CONFIG_LIMITS
  | OFFSET
deriving DecidableEq, Repr

/-- Position limits `config.pos_limits`, in the source's fixed order
`(xy, zmin, zmax, uv, wmin, wmax)` (mock_controller.py line 98). -/
structure PosLimits where
  xymax : ℚ
  zmin : ℚ
  zmax : ℚ
  uvmax : ℚ
  wmin : ℚ
  wmax : ℚ
deriving DecidableEq, Repr

/-- Velocity limits `config.vel_limits`, order
`(xy, xy rotation, z, z rotation)` (mock_controller.py line 101). -/
structure VelLimits where
  xyvel : ℚ
  rxryvel : ℚ
  zvel : ℚ
  rzvel : ℚ
deriving DecidableEq, Repr

/-- Pivot point `(p1, p2, p3)`. -/
structure Pivot where
  p1 : ℚ
  p2 : ℚ
  p3 : ℚ
deriving DecidableEq, Repr

/-- The mutable parts of `structs.Config` that commands read or write. -/
structure Config where
  strut_acceleration : ℚ
  pos_limits : PosLimits
  vel_limits : VelLimits
  pivot : Pivot
deriving DecidableEq, Repr

/-- Modelled from the spec: the hardware-envelope constants
(`constants.XY_MAX_LIMIT` …, `MAX_ACCEL_LIMIT`, `MAX_LINEAR_VEL_LIMIT`,
`MAX_ANGULAR_VEL_LIMIT` from the repository's `constants.py`, which is not
under src/).  They are supplied at construction and validated against by the
CONFIG_* commands, never mutated. -/
structure Envelope where
  pos : PosLimits
  max_accel : ℚ
  max_linear_vel : ℚ
  max_angular_vel : ℚ
deriving DecidableEq, Repr

/-- A parsed command record: opcode plus six numeric parameters. -/
structure Command where
  cmd : CommandCode
  param1 : ℚ
  param2 : ℚ
  param3 : ℚ
  param4 : ℚ
  param5 : ℚ
  param6 : ℚ
deriving DecidableEq, Repr

/-- Python `int()` on a float parameter: truncation toward zero (Lean `Int`
division truncates toward zero). -/
def pyInt (q : ℚ) : Int := q.num / (q.den : Int)

/-- A key of `self.command_table`: either `(cmd, int(param1))` for the two
dual-purpose opcodes or the opcode alone (`get_command_key`,
mock_controller.py lines 186-191). -/
inductive CmdKey
  | pair (c : CommandCode) (p : Int)
  | single (c : CommandCode)
deriving DecidableEq, Repr

/-- `MockMTHexapodController.get_command_key`. -/
def get_command_key (command : Command) : CmdKey :=
  if command.cmd = CommandCode.SET_STATE ∨ command.cmd = CommandCode.SET_ENABLED_SUBSTATE then
    CmdKey.pair command.cmd (pyInt command.param1)
  else CmdKey.single command.cmd

/-- Identifies the bound method stored in `self.command_table`; two keys may
map to the same handler (`do_move_point_to_point` serves both
MOVE_POINT_TO_POINT and MOVE_LUT). -/
inductive Handler
  | start
  | enable
  | standby
  | disable
  | exit
  | clear_error
  | enter_control
  | move_point_to_point
  | stop
  | position_set
  | set_pivotpoint
  | config_accel
  | config_limits
  | config_vel
deriving DecidableEq, Repr

/-- `self.command_table` (mock_controller.py lines 126-146).  The `param1`
values are `enums.SetStateParam` (START=1, ENABLE=2, STANDBY=3, DISABLE=4,
EXIT=5, CLEAR_ERROR=6, ENTER_CONTROL=7) and `enums.SetEnabledSubstateParam`
(MOVE_POINT_TO_POINT=1, STOP=3, MOVE_LUT=8). -/
def command_table (k : CmdKey) : Option Handler :=
  match k with
  | .pair .SET_STATE 1 => some .start
  | .pair .SET_STATE 2 => some .enable
  | .pair .SET_STATE 3 => some .standby
  | .pair .SET_STATE 4 => some .disable
  | .pair .SET_STATE 5 => some .exit
  | .pair .SET_STATE 6 => some .clear_error
  | .pair .SET_STATE 7 => some .enter_control
  | .pair .SET_ENABLED_SUBSTATE 1 => some .move_point_to_point
  -- "the mock controller ignores the lookup table, so MOVE_LUT is identical
  -- to MOVE_POINT_TO_POINT" (source comment, lines 136-137)
  | .pair .SET_ENABLED_SUBSTATE 8 => some .move_point_to_point
  | .pair .SET_ENABLED_SUBSTATE 3 => some .stop
  | .single .POSITION_SET => some .position_set
  | .single .SET_PIVOTPOINT => some .set_pivotpoint
  | .single .CONFIG_ACCEL => some .config_accel
  | .single .CONFIG_LIMITS => some .config_limits
  | .single .CONFIG_VEL => some .config_vel
  | _ => none

/-- The controller-owned mutable state: telemetry state/substate fields,
configuration, the staged target (`self.set_position`, NaN sentinel as
`none`), and the pose telemetry written by commands and by the sampler. -/
structure Ctrl where
  state : CtrlState
  offline_substate : OfflineSub
  enabled_substate : EnabledSub
  env : Envelope
  config : Config
  set_position : Option Vec6
  commanded_pos : Vec6
  commanded_length : List ℚ
  measured_pos : Vec6
deriving DecidableEq, Repr

/-- `MockMTHexapodController.set_state` (mock_controller.py lines 307-333):
store the new state; offline substate is AVAILABLE iff OFFLINE, enabled
substate is STATIONARY iff ENABLED, otherwise the neutral `0`. -/
def set_state (c : Ctrl) (s : CtrlState) : Ctrl :=
  { c with
    state := s,
    offline_substate := if s = CtrlState.offline then OfflineSub.available else OfflineSub.zero,
    enabled_substate := if s = CtrlState.enabled then EnabledSub.stationary else EnabledSub.zero }

/-- `MockMTHexapodController.assert_state` (lines 176-184): raise unless the
state (and each requested substate) matches. -/
def assert_state (c : Ctrl) (s : CtrlState) (off : Option OfflineSub)
    (en : Option EnabledSub) : Except String Unit :=
  if c.state ≠ s then .error "state mismatch; wrong state for this command."
  else if Option.any (fun o => decide (c.offline_substate ≠ o)) off then
    .error "offline_substate mismatch; wrong substate for this command."
  else if Option.any (fun e => decide (c.enabled_substate ≠ e)) en then
    .error "enabled_substate mismatch; wrong substate for this command."
  else .ok ()

/-- `assert_stationary` (lines 172-174). -/
def assert_stationary (c : Ctrl) : Except String Unit :=
  assert_state c CtrlState.enabled none (some EnabledSub.stationary)

/-- Modelled from the spec (`utils.py` is not under src/): *positive-bounded*
validation, `0 < value ≤ bound`, else rejected. -/
def check_positive_value (value bound : ℚ) : Except String Unit :=
  if 0 < value ∧ value ≤ bound then .ok () else .error "value must be positive and within bound"

/-- Modelled from the spec (`utils.py` is not under src/): *negative-bounded*
validation, `bound ≤ value < 0` where the stored hardware bound is itself the
negative limit. -/
def check_negative_value (value bound : ℚ) : Except String Unit :=
  if bound ≤ value ∧ value < 0 then .ok () else .error "value must be negative and within bound"

/-- Modelled from the spec (`utils.py` is not under src/): *symmetric-range*
validation, `−bound ≤ value ≤ bound`. -/
def check_symmetrical_range (value bound : ℚ) : Except String Unit :=
  if -bound ≤ value ∧ value ≤ bound then .ok () else .error "value out of symmetric range"

/-- Modelled from the spec (`utils.py` is not under src/): *asymmetric-range*
validation, `low ≤ value ≤ high`. -/
def check_range (value low high : ℚ) : Except String Unit :=
  if low ≤ value ∧ value ≤ high then .ok () else .error "value out of range"

/-- Run a sequence of validators, stopping (raising) at the first failure, as
the sequential `utils.check_*` calls in the source do. -/
def seqChecks : List (Except String Unit) → Except String Unit
  | [] => .ok ()
  | .ok _ :: rest => seqChecks rest
  | .error e :: _ => .error e

/-! Each `do_*` handler returns the state as mutated up to the point where the
handler either finished or raised, together with the exception if it raised —
Python handlers mutate `self` in place, so a raise after a partial mutation
would leave the mutation behind. -/

/-- `do_enter_control` (lines 193-196). -/
def do_enter_control (c : Ctrl) (_command : Command) : Ctrl × Option String :=
  match assert_state c CtrlState.offline (some OfflineSub.available) none with
  | .error e => (c, some e)
  | .ok _ => (set_state c CtrlState.standby, none)

/-- `do_start` (lines 198-200). -/
def do_start (c : Ctrl) (_command : Command) : Ctrl × Option String :=
  match assert_state c CtrlState.standby none none with
  | .error e => (c, some e)
  | .ok _ => (set_state c CtrlState.disabled, none)

/-- `do_enable` (lines 202-204). -/
def do_enable (c : Ctrl) (_command : Command) : Ctrl × Option String :=
  match assert_state c CtrlState.disabled none none with
  | .error e => (c, some e)
  | .ok _ => (set_state c CtrlState.enabled, none)

/-- `do_disable` (lines 206-208). -/
def do_disable (c : Ctrl) (_command : Command) : Ctrl × Option String :=
  match assert_state c CtrlState.enabled none none with
  | .error e => (c, some e)
  | .ok _ => (set_state c CtrlState.disabled, none)

/-- `do_standby` (lines 210-212). -/
def do_standby (c : Ctrl) (_command : Command) : Ctrl × Option String :=
  match assert_state c CtrlState.disabled none none with
  | .error e => (c, some e)
  | .ok _ => (set_state c CtrlState.standby, none)

/-- `do_exit` (lines 214-216). -/
def do_exit (c : Ctrl) (_command : Command) : Ctrl × Option String :=
  match assert_state c CtrlState.standby none none with
  | .error e => (c, some e)
  | .ok _ => (set_state c CtrlState.offline, none)

/-- `do_clear_error` (lines 218-225): accepted from FAULT or OFFLINE. -/
def do_clear_error (c : Ctrl) (_command : Command) : Ctrl × Option String :=
  if c.state ≠ CtrlState.fault ∧ c.state ≠ CtrlState.offline then
    (c, some "state must be FAULT or OFFLINE for this command.")
  else (set_state c CtrlState.offline, none)

/-- `do_config_accel` (lines 227-233): inline `0 < param1 ≤ MAX_ACCEL_LIMIT`
check, then set `config.strut_acceleration`. -/
def do_config_accel (c : Ctrl) (command : Command) : Ctrl × Option String :=
  match assert_stationary c with
  | .error e => (c, some e)
  | .ok _ =>
    if ¬(0 < command.param1 ∧ command.param1 ≤ c.env.max_accel) then
      (c, some "Requested accel limit not in range")
    else ({ c with config := { c.config with strut_acceleration := command.param1 } }, none)

/-- `do_config_limits` (lines 235-245): six sign-specific checks against the
construction-time hardware envelope, then set `config.pos_limits`. -/
def do_config_limits (c : Ctrl) (command : Command) : Ctrl × Option String :=
  match assert_stationary c with
  | .error e => (c, some e)
  | .ok _ =>
    match seqChecks
        [check_positive_value command.param1 c.env.pos.xymax,
         check_negative_value command.param2 c.env.pos.zmin,
         check_positive_value command.param3 c.env.pos.zmax,
         check_positive_value command.param4 c.env.pos.uvmax,
         check_negative_value command.param5 c.env.pos.wmin,
         check_positive_value command.param6 c.env.pos.wmax] with
    | .error e => (c, some e)
    | .ok _ =>
      ({ c with config := { c.config with
          pos_limits := ⟨command.param1, command.param2, command.param3,
                         command.param4, command.param5, command.param6⟩ } }, none)

/-- `do_config_vel` (lines 247-255): four positive-bounded checks against the
linear/angular velocity constants, then set `config.vel_limits`. -/
def do_config_vel (c : Ctrl) (command : Command) : Ctrl × Option String :=
  match assert_stationary c with
  | .error e => (c, some e)
  | .ok _ =>
    match seqChecks
        [check_positive_value command.param1 c.env.max_linear_vel,
         check_positive_value command.param2 c.env.max_angular_vel,
         check_positive_value command.param3 c.env.max_linear_vel,
         check_positive_value command.param4 c.env.max_angular_vel] with
    | .error e => (c, some e)
    | .ok _ =>
      ({ c with config := { c.config with
          vel_limits := ⟨command.param1, command.param2, command.param3, command.param4⟩ } }, none)

/-- `do_position_set` (lines 260-271): six range checks against the *current*
`config.pos_limits`, then stage `self.set_position`. -/
def do_position_set (c : Ctrl) (command : Command) : Ctrl × Option String :=
  match assert_stationary c with
  | .error e => (c, some e)
  | .ok _ =>
    match seqChecks
        [check_symmetrical_range command.param1 c.config.pos_limits.xymax,
         check_symmetrical_range command.param2 c.config.pos_limits.xymax,
         check_range command.param3 c.config.pos_limits.zmin c.config.pos_limits.zmax,
         check_symmetrical_range command.param4 c.config.pos_limits.uvmax,
         check_symmetrical_range command.param5 c.config.pos_limits.uvmax,
         check_range command.param6 c.config.pos_limits.wmin c.config.pos_limits.wmax] with
    | .error e => (c, some e)
    | .ok _ =>
      ({ c with set_position := some ⟨command.param1, command.param2, command.param3,
                                      command.param4, command.param5, command.param6⟩ }, none)

/-- `do_set_pivotpoint` (lines 273-276). -/
def do_set_pivotpoint (c : Ctrl) (command : Command) : Ctrl × Option String :=
  match assert_stationary c with
  | .error e => (c, some e)
  | .ok _ =>
    ({ c with config := { c.config with
        pivot := ⟨command.param1, command.param2, command.param3⟩ } }, none)

/-- `do_stop` (lines 278-281): requires ENABLED; `hexapod.stop()` is a call
into the external kinematics model; substate becomes STATIONARY. -/
def do_stop (c : Ctrl) (_command : Command) : Ctrl × Option String :=
  match assert_state c CtrlState.enabled none none with
  | .error e => (c, some e)
  | .ok _ => ({ c with enabled_substate := EnabledSub.stationary }, none)

/-- `do_move_point_to_point` (lines 283-290): reject when `set_position` is
the NaN sentinel; otherwise copy the staged target to
`telemetry.commanded_pos`, call the external kinematics model's `move` (whose
resulting per-actuator end positions `end_pos` arrive as the oracle argument
`end_positions`), record `commanded_length`, and enter
MOVING_POINT_TO_POINT. -/
def do_move_point_to_point (c : Ctrl) (_command : Command)
    (end_positions : List ℚ) : Ctrl × Option String :=
  match c.set_position with
  | none => (c, some "Must call POSITION_SET before calling MOVE_POINT_TO_POINT")
  | some sp =>
    ({ c with
        commanded_pos := sp,
        commanded_length := end_positions,
        enabled_substate := EnabledSub.movingPointToPoint }, none)

/-- Dispatch a handler tag to its `do_*` function. -/
def runHandler (h : Handler) (c : Ctrl) (command : Command)
    (end_positions : List ℚ) : Ctrl × Option String :=
  match h with
  | .start => do_start c command
  | .enable => do_enable c command
  | .standby => do_standby c command
  | .disable => do_disable c command
  | .exit => do_exit c command
  | .clear_error => do_clear_error c command
  | .enter_control => do_enter_control c command
  | .move_point_to_point => do_move_point_to_point c command end_positions
  | .stop => do_stop c command
  | .position_set => do_position_set c command
  | .set_pivotpoint => do_set_pivotpoint c command
  | .config_accel => do_config_accel c command
  | .config_limits => do_config_limits c command
  | .config_vel => do_config_vel c command

/-- `run_command` (mock_controller.py lines 292-305): look up the command key;
an unrecognized key is logged and dropped with an early `return` (before the
staged-target reset); otherwise the handler runs with any exception caught and
logged, and afterwards `self.set_position` is reset to the NaN sentinel unless
the dispatched handler was `do_position_set`. -/
def run_command (c : Ctrl) (command : Command) (end_positions : List ℚ) : Ctrl :=
  match command_table (get_command_key command) with
  | none => c
  | some h =>
    let r := runHandler h c command end_positions
    if h = Handler.position_set then r.1 else { r.1 with set_position := none }

/-- `update_telemetry` (mock_controller.py lines 346-376), restricted to the
controller-owned state it mutates: each actuator's `moving` flag is read from
the external kinematics model (the `axes_moving` argument);
`measured_pos` is copied from `commanded_pos`; and when the state is ENABLED,
the substate MOVING_POINT_TO_POINT and every actuator reports in position, the
substate falls back to STATIONARY.  (The status words, fault registers and
encoder telemetry are derived outputs recomputed each tick and are not part of
the controller state.) -/
def update_telemetry (c : Ctrl) (axes_moving : List Bool) : Ctrl :=
  let axes_in_position := axes_moving.map (fun m => !m)
  let c := { c with measured_pos := c.commanded_pos }
  if c.state = CtrlState.enabled ∧ c.enabled_substate = EnabledSub.movingPointToPoint ∧
      axes_in_position.all (fun b => b) then
    { c with enabled_substate := EnabledSub.stationary }
  else c

/-- `MockMTHexapodController.__init__` (lines 86-150): initial configuration
(`strut_acceleration = 500`, position limits from the hardware envelope,
velocity limits from the velocity constants, pivot `(0, 0, mirror_z + 1e5)`
with `mirror_z = 0.5e6`), zero commanded pose, NaN (unset) staged target, then
`set_state(initial_state)`. -/
def initial_ctrl (env : Envelope) (initial_state : CtrlState) : Ctrl :=
  set_state
    { state := CtrlState.offline,
      offline_substate := OfflineSub.zero,
      enabled_substate := EnabledSub.zero,
      env := env,
      config :=
        { strut_acceleration := 500,
          pos_limits := env.pos,
          vel_limits := ⟨env.max_linear_vel, env.max_angular_vel,
                         env.max_linear_vel, env.max_angular_vel⟩,
          pivot := ⟨0, 0, 600000⟩ },
      set_position := none,
      commanded_pos := ⟨0, 0, 0, 0, 0, 0⟩,
      commanded_length := [],
      measured_pos := ⟨0, 0, 0, 0, 0, 0⟩ }
    initial_state

/-- An externally triggered activity touching the controller state: a command
delivered by the transport (with the kinematics model's resulting actuator end
positions as oracle), or one telemetry sampling tick (with the kinematics
model's per-actuator `moving` flags as oracle). -/
inductive Event
  | command (command : Command) (end_positions : List ℚ)
  | tick (axes_moving : List Bool)

/-- One step of the controller. -/
def step (c : Ctrl) : Event → Ctrl
  | .command command end_positions => run_command c command end_positions
  | .tick axes_moving => update_telemetry c axes_moving

/-- Run a sequence of events. -/
def run_events (c : Ctrl) (events : List Event) : Ctrl := events.foldl step c

/-- State invariant maintained by the mock controller: a staged target exists
only in ENABLED/STATIONARY (every other command resets it), and a non-neutral
enabled substate occurs only in state ENABLED. -/
def Inv (c : Ctrl) : Prop :=
  (c.set_position.isSome → c.state = CtrlState.enabled ∧
      c.enabled_substate = EnabledSub.stationary) ∧
  (c.enabled_substate ≠ EnabledSub.zero → c.state = CtrlState.enabled)

instance (c : Ctrl) : Decidable (Inv c) := by unfold Inv; infer_instance

/-- The spec's declared transition table (§4.1): the state (and substate) each
state-change or substate-change command requires.  Commands that are not state
or substate changes have no entry (their required precondition is `True`). -/
def declared_precondition (h : Handler) (c : Ctrl) : Prop :=
  match h with
  | .enter_control => c.state = CtrlState.offline ∧ c.offline_substate = OfflineSub.available
  | .start => c.state = CtrlState.standby
  | .enable => c.state = CtrlState.disabled
  | .disable => c.state = CtrlState.enabled
  | .standby => c.state = CtrlState.disabled
  | .exit => c.state = CtrlState.standby
  | .clear_error => c.state = CtrlState.fault ∨ c.state = CtrlState.offline
  | .move_point_to_point => c.state = CtrlState.enabled
  | .stop => c.state = CtrlState.enabled
  | _ => True

instance (h : Handler) (c : Ctrl) : Decidable (declared_precondition h c) := by
  unfold declared_precondition; cases h <;> infer_instance

/-! ### Concrete fixtures for witnesses and counterexamples -/

/-- The 5-row elevation table of spec scenario 1: inputs `0,10,20,30,40`,
x-corrections `0,1,2,3,4`, other columns zero. -/
def t0 : LookupTable :=
  ⟨some "elevation", [0, 10, 20, 30, 40],
   [⟨0, 0, 0, 0, 0, 0⟩, ⟨1, 0, 0, 0, 0, 0⟩, ⟨2, 0, 0, 0, 0, 0⟩,
    ⟨3, 0, 0, 0, 0, 0⟩, ⟨4, 0, 0, 0, 0, 0⟩]⟩

/-- A calibration file whose input column repeats the value `0`. -/
def lines_dup : List String :=
  ["elevation x y z u v w", "0 0 0 0 0 0 0", "0 1 1 1 1 1 1"]

/-- A well-formed two-row calibration file. -/
def lines_two : List String :=
  ["elevation x y z u v w", "0 0 0 0 0 0 0", "10 1 0 0 0 0 0"]

/-- A calibration file with a single data row. -/
def lines_one : List String := ["elevation x y z u v w", "5 1 2 3 4 5 6"]

/-- A calibration file with a header and no data rows. -/
def lines_zero : List String := ["elevation x y z u v w"]

/-- The table `loadLookupTable` builds from `lines_dup`. -/
def tbl_dup : LookupTable :=
  ⟨some "elevation", [0, 0], [⟨0, 0, 0, 0, 0, 0⟩, ⟨1, 1, 1, 1, 1, 1⟩]⟩

/-- The table `loadLookupTable` builds from `lines_two`. -/
def tbl_two : LookupTable :=
  ⟨some "elevation", [0, 10], [⟨0, 0, 0, 0, 0, 0⟩, ⟨1, 0, 0, 0, 0, 0⟩]⟩

/-- The table `loadLookupTable` builds from `lines_one`. -/
def tbl_one : LookupTable := ⟨some "elevation", [5], [⟨1, 2, 3, 4, 5, 6⟩]⟩

/-- The table `loadLookupTable` builds from `lines_zero`. -/
def tbl_zero : LookupTable := ⟨some "elevation", [], []⟩

/-- A concrete hardware envelope for the mock controller fixtures. -/
def env0 : Envelope := ⟨⟨100, -100, 100, 100, -100, 100⟩, 500, 100, 100⟩

/-- Mock controller in its default initial state (OFFLINE/AVAILABLE). -/
def c_off : Ctrl := initial_ctrl env0 CtrlState.offline

/-- Mock controller started in ENABLED (allowed via `initial_state`). -/
def c_en : Ctrl := initial_ctrl env0 CtrlState.enabled

/-- A POSITION_SET command whose parameters lie inside `env0`'s limits. -/
def posSetCmd : Command := ⟨CommandCode.POSITION_SET, 1, 2, 3, 4, 5, 6⟩

/-- The controller after an accepted POSITION_SET: target `(1,2,3,4,5,6)`
staged. -/
def c_staged : Ctrl := run_command c_en posSetCmd []

/-- An OFFSET command: `CommandCode.OFFSET` has no entry in
`self.command_table`, so its key is unrecognized. -/
def offsetCmd : Command := ⟨CommandCode.OFFSET, 0, 0, 0, 0, 0, 0⟩

/-- SET_STATE/START (`param1 = SetStateParam.START = 1`). -/
def startCmd : Command := ⟨CommandCode.SET_STATE, 1, 0, 0, 0, 0, 0⟩

/-- SET_ENABLED_SUBSTATE/MOVE_POINT_TO_POINT (`param1 = 1`). -/
def moveCmd : Command := ⟨CommandCode.SET_ENABLED_SUBSTATE, 1, 0, 0, 0, 0, 0⟩

/-- The controller mid-move: staged target consumed by
MOVE_POINT_TO_POINT, substate MOVING_POINT_TO_POINT. -/
def c_moving : Ctrl := run_command c_staged moveCmd [1, 2, 3, 4, 5, 6]

/-- A controller with a staged target but state DISABLED (exercises the
wrong-state rejection path of `do_position_set`). -/
def c_staged_disabled : Ctrl := { c_staged with state := CtrlState.disabled }

/-! ## Lemmas -/

/-- `takeWhile` keeps exactly `n` elements when the first `n` satisfy the
predicate and the element at position `n` (if any) does not. -/
theorem length_takeWhile_eq {α : Type} (p : α → Bool) (d : α) :
    ∀ (l : List α) (n : ℕ), n ≤ l.length →
      (∀ j, j < n → p (l.getD j d) = true) →
      (∀ _hn : n < l.length, p (l.getD n d) = false) →
      (l.takeWhile p).length = n
  | [], n, hn, _, _ => by
    have : n = 0 := by simpa using hn
    simp [this]
  | a :: t, 0, _, _, h2 => by
    have ha : p a = false := by simpa using h2 (by simp)
    simp [List.takeWhile_cons, ha]
  | a :: t, n + 1, hn, h1, h2 => by
    have ha : p a = true := by simpa using h1 0 (Nat.succ_pos n)
    have ht : (t.takeWhile p).length = n :=
      length_takeWhile_eq p d t n (by simpa using hn)
        (fun j hj => by simpa using h1 (j + 1) (by omega))
        (fun hn2 => by simpa using h2 (by simpa using Nat.succ_lt_succ hn2))
    simp [List.takeWhile_cons, ha, ht]

/-- In a strictly increasing list, `getD` is monotone. -/
theorem pairwise_getD_le (l : List ℚ) (h : l.Pairwise (· < ·)) {i j : ℕ}
    (hij : i ≤ j) (hj : j < l.length) : l.getD i 0 ≤ l.getD j 0 := by
  rcases Nat.lt_or_ge i j with hlt | hge
  · have hi : i < l.length := lt_trans hlt hj
    have := (List.pairwise_iff_getElem.mp h) i j hi hj hlt
    rw [List.getD_eq_getElem l 0 hi, List.getD_eq_getElem l 0 hj]
    exact le_of_lt this
  · have : i = j := Nat.le_antisymm hij hge
    rw [this]

/-- In a strictly increasing list, `getD` is strictly monotone. -/
theorem pairwise_getD_lt (l : List ℚ) (h : l.Pairwise (· < ·)) {i j : ℕ}
    (hij : i < j) (hj : j < l.length) : l.getD i 0 < l.getD j 0 := by
  have hi : i < l.length := lt_trans hij hj
  have := (List.pairwise_iff_getElem.mp h) i j hi hj hij
  rw [List.getD_eq_getElem l 0 hi, List.getD_eq_getElem l 0 hj]
  exact this

/-- Characterisation of `bisect_right` on the sorted lists it is used with:
it returns `k` when the first `k` entries are `≤ v` and the entry at `k`
(if any) exceeds `v`. -/
theorem bisect_right_eq (l : List ℚ) (v : ℚ) (k : ℕ) (hk : k ≤ l.length)
    (h1 : ∀ j, j < k → l.getD j 0 ≤ v)
    (h2 : ∀ _hn : k < l.length, v < l.getD k 0) :
    bisect_right l v = k := by
  unfold bisect_right
  refine length_takeWhile_eq (fun y => decide (y ≤ v)) 0 l k hk ?_ ?_
  · intro j hj; simpa using h1 j hj
  · intro hn; simpa [not_le] using h2 hn

/-- `pyGet` at a nonnegative in-range index. -/
theorem pyGet_ofNat {α : Type} [Inhabited α] (l : List α) (i : ℕ) (h : i < l.length) :
    pyGet l (i : Int) = .ok (l.getD i default) := by
  unfold pyGet
  have h0 : ¬((i : Int) < 0) := by omega
  rw [if_neg h0, if_pos (by omega)]
  simp

/-- `pyGet` at index `-1` returns the last element. -/
theorem pyGet_neg_one {α : Type} [Inhabited α] (l : List α) (h : 0 < l.length) :
    pyGet l (-1) = .ok (l.getD (l.length - 1) default) := by
  unfold pyGet
  rw [if_pos (by omega), if_pos (by omega)]
  have : ((-1 : Int) + l.length).toNat = l.length - 1 := by omega
  rw [this]

/-- Core evaluation lemma for `get_correction` on a valid table: a query in
segment `i` (in the adjusted sense of the claim: `input[i] ≤ v < input[i+1]`,
or `i` the second-to-last index and `v` up to the last breakpoint)
interpolates linearly in that segment. -/
theorem get_correction_eq_lerp (t : LookupTable) (input_value : ℚ) (i : ℕ)
    (hlen : t.corr_data.length = t.input_data.length)
    (hsort : t.input_data.Pairwise (· < ·))
    (hn : 2 ≤ t.input_data.length)
    (hi : i + 1 < t.input_data.length)
    (hle : t.input_data.getD i 0 ≤ input_value)
    (hhi : input_value < t.input_data.getD (i + 1) 0 ∨
      (i + 2 = t.input_data.length ∧ input_value ≤ t.input_data.getD (i + 1) 0)) :
    get_correction t input_value =
      .ok (t.corr_data.getD i default +
        ((input_value - t.input_data.getD i 0) /
          (t.input_data.getD (i + 1) 0 - t.input_data.getD i 0)) •
        (t.corr_data.getD (i + 1) default - t.corr_data.getD i default)) := by
  have hn0 : 0 < t.input_data.length := by omega
  have hdq : (default : ℚ) = 0 := rfl
  have hfirst : pyGet t.input_data 0 = .ok (t.input_data.getD 0 0) := by
    have h := pyGet_ofNat t.input_data 0 hn0
    rw [hdq] at h
    simpa using h
  have hlast : pyGet t.input_data (-1) = .ok (t.input_data.getD (t.input_data.length - 1) 0) := by
    have h := pyGet_neg_one t.input_data hn0
    rw [hdq] at h
    exact h
  have hfle : t.input_data.getD 0 0 ≤ input_value :=
    le_trans (pairwise_getD_le _ hsort (Nat.zero_le i) (by omega)) hle
  have hlastge : input_value ≤ t.input_data.getD (t.input_data.length - 1) 0 := by
    rcases hhi with hv | ⟨hiend, hv⟩
    · exact le_trans (le_of_lt hv) (pairwise_getD_le _ hsort (by omega) (by omega))
    · have heq : i + 1 = t.input_data.length - 1 := by omega
      rw [← heq]; exact hv
  have hrange : ¬(input_value < t.input_data.getD 0 0 ∨
      input_value > t.input_data.getD (t.input_data.length - 1) 0) := by
    rw [not_or]
    exact ⟨not_lt.mpr hfle, not_lt.mpr hlastge⟩
  have hdenom : t.input_data.getD i 0 < t.input_data.getD (i + 1) 0 :=
    pairwise_getD_lt _ hsort (Nat.lt_succ_self i) hi
  have hsub : ¬(t.input_data.getD (i + 1) 0 - t.input_data.getD i 0 = 0) :=
    sub_ne_zero_of_ne (ne_of_gt hdenom)
  have hxi : pyGet t.input_data (i : Int) = .ok (t.input_data.getD i 0) := by
    have h := pyGet_ofNat t.input_data i (by omega)
    rw [hdq] at h; exact h
  have hxi1 : pyGet t.input_data ((i : Int) + 1) = .ok (t.input_data.getD (i + 1) 0) := by
    have h := pyGet_ofNat t.input_data (i + 1) hi
    rw [hdq] at h; push_cast at h; exact h
  have hci : pyGet t.corr_data (i : Int) = .ok (t.corr_data.getD i default) :=
    pyGet_ofNat t.corr_data i (by omega)
  have hci1 : pyGet t.corr_data ((i : Int) + 1) = .ok (t.corr_data.getD (i + 1) default) := by
    have h := pyGet_ofNat t.corr_data (i + 1) (by omega)
    push_cast at h; exact h
  by_cases hv : input_value < t.input_data.getD (i + 1) 0
  · have hbis : bisect_right t.input_data input_value = i + 1 := by
      refine bisect_right_eq _ _ _ (by omega) ?_ ?_
      · intro j hj
        exact le_trans (pairwise_getD_le _ hsort (by omega) (by omega)) hle
      · intro _; exact hv
    unfold get_correction
    rw [hfirst, hlast]
    simp only [hbis]
    rw [if_neg hrange]
    rw [if_neg (by push_cast; omega : ¬((((i + 1 : ℕ) : Int) - 1) = (t.input_data.length : Int) - 1))]
    have hidx : (((i + 1 : ℕ) : Int) - 1) = (i : Int) := by push_cast; ring
    rw [hidx]
    simp only [hxi, hxi1]
    rw [if_neg hsub]
    simp only [hci, hci1]
  · have hiend : i + 2 = t.input_data.length := by
      rcases hhi with h' | ⟨h', _⟩
      · exact absurd h' hv
      · exact h'
    have hveq : input_value = t.input_data.getD (i + 1) 0 := by
      rcases hhi with h' | ⟨_, h'⟩
      · exact absurd h' hv
      · exact le_antisymm h' (not_lt.mp hv)
    have hbis : bisect_right t.input_data input_value = t.input_data.length := by
      refine bisect_right_eq _ _ _ (le_refl _) ?_ ?_
      · intro j hj
        have hj1 : j ≤ t.input_data.length - 1 := by omega
        have : t.input_data.getD j 0 ≤ t.input_data.getD (t.input_data.length - 1) 0 :=
          pairwise_getD_le _ hsort hj1 (by omega)
        calc t.input_data.getD j 0 ≤ t.input_data.getD (t.input_data.length - 1) 0 := this
          _ = t.input_data.getD (i + 1) 0 := by congr 1; omega
          _ = input_value := hveq.symm
      · intro h'; omega
    unfold get_correction
    rw [hfirst, hlast]
    simp only [hbis]
    rw [if_neg hrange]
    simp only [if_true]
    have hidx : ((t.input_data.length : Int) - 1 - 1) = (i : Int) := by omega
    rw [hidx]
    simp only [hxi, hxi1]
    rw [if_neg hsub]
    simp only [hci, hci1]
/-- The three `Nat.findGreatest` facts bundled with the predicate explicit. -/
theorem findGreatest_facts (P : ℕ → Prop) [DecidablePred P] (b : ℕ) (h0 : P 0) :
    P (Nat.findGreatest P b) ∧ Nat.findGreatest P b ≤ b ∧
      (∀ k, Nat.findGreatest P b < k → k ≤ b → ¬ P k) :=
  ⟨Nat.findGreatest_spec (Nat.zero_le _) h0, Nat.findGreatest_le _,
   fun _ hk hkb => Nat.findGreatest_is_greatest hk hkb⟩

/-- Between `min` and `max` of a list of length ≥ 2 there is always a segment
index in the adjusted sense of `get_correction_eq_lerp`. -/
theorem exists_segment (l : List ℚ) (hn : 2 ≤ l.length) (v : ℚ)
    (h0 : l.getD 0 0 ≤ v) (h1 : v ≤ l.getD (l.length - 1) 0) :
    ∃ i, i + 1 < l.length ∧ l.getD i 0 ≤ v ∧
      (v < l.getD (i + 1) 0 ∨ (i + 2 = l.length ∧ v ≤ l.getD (i + 1) 0)) := by
  obtain ⟨hPi, hile, hgr⟩ :=
    findGreatest_facts (fun j => l.getD j 0 ≤ v) (l.length - 2) h0
  set i := Nat.findGreatest (fun j => l.getD j 0 ≤ v) (l.length - 2) with hidef
  refine ⟨i, by omega, hPi, ?_⟩
  by_cases hcase : i = l.length - 2
  · by_cases hv : v < l.getD (i + 1) 0
    · exact Or.inl hv
    · refine Or.inr ⟨by omega, ?_⟩
      have he : i + 1 = l.length - 1 := by omega
      rw [he]; exact h1
  · have hnp : ¬(l.getD (i + 1) 0 ≤ v) := hgr (i + 1) (Nat.lt_succ_self i) (by omega)
    exact Or.inl (not_le.mp hnp)

theorem vec6_add_def (a b : Vec6) :
    a + b = ⟨a.x + b.x, a.y + b.y, a.z + b.z, a.u + b.u, a.v + b.v, a.w + b.w⟩ := rfl

theorem vec6_sub_def (a b : Vec6) :
    a - b = ⟨a.x - b.x, a.y - b.y, a.z - b.z, a.u - b.u, a.v - b.v, a.w - b.w⟩ := rfl

theorem vec6_smul_def (f : ℚ) (a : Vec6) :
    f • a = ⟨f * a.x, f * a.y, f * a.z, f * a.u, f * a.v, f * a.w⟩ := rfl

/-- Interpolating with fraction 0 returns the left row. -/
theorem vec6_lerp_zero (a b : Vec6) : a + (0 : ℚ) • (b - a) = a := by
  cases a; cases b
  simp [vec6_add_def, vec6_sub_def, vec6_smul_def]

/-- Interpolating with fraction 1 returns the right row. -/
theorem vec6_lerp_one (a b : Vec6) : a + (1 : ℚ) • (b - a) = b := by
  cases a; cases b
  simp [vec6_add_def, vec6_sub_def, vec6_smul_def]

/-! ### Controller lemmas -/

theorem assert_state_none_none (c : Ctrl) (s : CtrlState) :
    assert_state c s none none =
      if c.state = s then .ok ()
      else .error "state mismatch; wrong state for this command." := by
  unfold assert_state
  by_cases h : c.state = s <;> simp [h, Option.any]

theorem assert_state_offline_available (c : Ctrl) :
    assert_state c CtrlState.offline (some OfflineSub.available) none =
      if c.state = CtrlState.offline then
        (if c.offline_substate = OfflineSub.available then .ok ()
         else .error "offline_substate mismatch; wrong substate for this command.")
      else .error "state mismatch; wrong state for this command." := by
  unfold assert_state
  by_cases h : c.state = CtrlState.offline <;>
    by_cases h2 : c.offline_substate = OfflineSub.available <;>
      simp [h, h2, Option.any]

theorem assert_stationary_eq (c : Ctrl) :
    assert_stationary c =
      if c.state = CtrlState.enabled then
        (if c.enabled_substate = EnabledSub.stationary then .ok ()
         else .error "enabled_substate mismatch; wrong substate for this command.")
      else .error "state mismatch; wrong state for this command." := by
  unfold assert_stationary assert_state
  by_cases h : c.state = CtrlState.enabled <;>
    by_cases h2 : c.enabled_substate = EnabledSub.stationary <;>
      simp [h, h2, Option.any]

/-- No handler mutates the controller before its first possible raise: a
handler that raised left the state exactly as it found it.  (In the source
each `do_*` method performs all `assert`/`check` calls before its first
assignment to `self`.) -/
theorem handler_error_fst (h : Handler) (c : Ctrl) (command : Command)
    (end_positions : List ℚ) (herr : (runHandler h c command end_positions).2.isSome) :
    (runHandler h c command end_positions).1 = c := by
  cases h <;>
    simp only [runHandler, do_start, do_enable, do_standby, do_disable, do_exit,
      do_clear_error, do_enter_control, do_move_point_to_point, do_stop,
      do_position_set, do_set_pivotpoint, do_config_accel, do_config_limits,
      do_config_vel] at herr ⊢ <;>
    (repeat' split at herr) <;> simp_all

/-- A state-change or substate-change command whose declared precondition
fails raises inside its handler without mutating the controller. -/
theorem handler_wrong_state (h : Handler) (c : Ctrl) (command : Command)
    (end_positions : List ℚ) (hInv : Inv c)
    (hpre : ¬ declared_precondition h c) :
    ∃ e, runHandler h c command end_positions = (c, some e) := by
  cases h
  case start =>
    unfold declared_precondition at hpre
    simp only [runHandler, do_start, assert_state_none_none]
    rw [if_neg hpre]
    exact ⟨_, rfl⟩
  case enable =>
    unfold declared_precondition at hpre
    simp only [runHandler, do_enable, assert_state_none_none]
    rw [if_neg hpre]
    exact ⟨_, rfl⟩
  case standby =>
    unfold declared_precondition at hpre
    simp only [runHandler, do_standby, assert_state_none_none]
    rw [if_neg hpre]
    exact ⟨_, rfl⟩
  case disable =>
    unfold declared_precondition at hpre
    simp only [runHandler, do_disable, assert_state_none_none]
    rw [if_neg hpre]
    exact ⟨_, rfl⟩
  case exit =>
    unfold declared_precondition at hpre
    simp only [runHandler, do_exit, assert_state_none_none]
    rw [if_neg hpre]
    exact ⟨_, rfl⟩
  case clear_error =>
    unfold declared_precondition at hpre
    rw [not_or] at hpre
    simp only [runHandler, do_clear_error]
    rw [if_pos hpre]
    exact ⟨_, rfl⟩
  case enter_control =>
    unfold declared_precondition at hpre
    simp only [runHandler, do_enter_control, assert_state_offline_available]
    by_cases h1 : c.state = CtrlState.offline
    · have h2 : ¬ c.offline_substate = OfflineSub.available := fun h2 => hpre ⟨h1, h2⟩
      rw [if_pos h1, if_neg h2]
      exact ⟨_, rfl⟩
    · rw [if_neg h1]
      exact ⟨_, rfl⟩
  case stop =>
    unfold declared_precondition at hpre
    simp only [runHandler, do_stop, assert_state_none_none]
    rw [if_neg hpre]
    exact ⟨_, rfl⟩
  case move_point_to_point =>
    unfold declared_precondition at hpre
    have hsp : c.set_position = none := by
      cases hs : c.set_position with
      | none => rfl
      | some sp =>
        exact absurd (hInv.1 (by rw [hs]; rfl)).1 hpre
    simp only [runHandler, do_move_point_to_point, hsp]
    exact ⟨_, rfl⟩
  case position_set => exact absurd trivial hpre
  case set_pivotpoint => exact absurd trivial hpre
  case config_accel => exact absurd trivial hpre
  case config_limits => exact absurd trivial hpre
  case config_vel => exact absurd trivial hpre

/-! ## Claim theorems -/

/-- Claim C1: For every loaded lookup table (input sequence strictly increasing,
length at least 2) and every query value inside `[min, max]`, `get_correction`
returns `row[i] + frac * (row[i+1] - row[i])` where `i` is the highest index
with `input[i] ≤ value` (second-to-last segment when the value equals the last
breakpoint) and `frac = (value - input[i]) / (input[i+1] - input[i])`; in
particular a query exactly at breakpoint `input[j]` returns the stored row
`j`. -/
theorem c1_get_correction_piecewise_linear (t : LookupTable)
    (hlen : t.corr_data.length = t.input_data.length)
    (hsort : t.input_data.Pairwise (· < ·))
    (hn : 2 ≤ t.input_data.length) :
    (∀ (input_value : ℚ) (i : ℕ), i + 1 < t.input_data.length →
        t.input_data.getD i 0 ≤ input_value →
        (input_value < t.input_data.getD (i + 1) 0 ∨
          (i + 2 = t.input_data.length ∧ input_value ≤ t.input_data.getD (i + 1) 0)) →
        get_correction t input_value =
          .ok (t.corr_data.getD i default +
            ((input_value - t.input_data.getD i 0) /
              (t.input_data.getD (i + 1) 0 - t.input_data.getD i 0)) •
            (t.corr_data.getD (i + 1) default - t.corr_data.getD i default))) ∧
    (∀ j, j < t.input_data.length →
        get_correction t (t.input_data.getD j 0) = .ok (t.corr_data.getD j default)) := by
  constructor
  · intro v i hi hle hhi
    exact get_correction_eq_lerp t v i hlen hsort hn hi hle hhi
  · intro j hj
    by_cases hj1 : j + 1 < t.input_data.length
    · have h := get_correction_eq_lerp t (t.input_data.getD j 0) j hlen hsort hn hj1 (le_refl _)
        (Or.inl (pairwise_getD_lt _ hsort (Nat.lt_succ_self j) hj1))
      rw [h, sub_self, zero_div, vec6_lerp_zero]
    · have hj2 : j = t.input_data.length - 1 := by omega
      have hi1 : (j - 1) + 1 < t.input_data.length := by omega
      have hidx : (j - 1) + 1 = j := by omega
      have hstep : t.input_data.getD (j - 1) 0 < t.input_data.getD j 0 := by
        have h' := pairwise_getD_lt t.input_data hsort (show j - 1 < j - 1 + 1 by omega) hi1
        rwa [hidx] at h'
      have hle' : t.input_data.getD (j - 1) 0 ≤ t.input_data.getD j 0 := le_of_lt hstep
      have hveq : t.input_data.getD j 0 ≤ t.input_data.getD ((j - 1) + 1) 0 := by
        rw [hidx]
      have h := get_correction_eq_lerp t (t.input_data.getD j 0) (j - 1) hlen hsort hn hi1 hle'
        (Or.inr ⟨by omega, hveq⟩)
      rw [h, hidx, div_self (sub_ne_zero_of_ne (ne_of_gt hstep)), vec6_lerp_one]

/-- Claim C5: `get_correction` fails with the out-of-range error naming the table
bounds if and only if the query value is strictly below the first stored input
value or strictly above the last; a failing query produces an error and no
correction value. -/
theorem c5_error_iff_out_of_range (t : LookupTable) (input_value : ℚ)
    (hlen : t.corr_data.length = t.input_data.length)
    (hsort : t.input_data.Pairwise (· < ·))
    (hn : 2 ≤ t.input_data.length) :
    ((input_value < t.input_data.getD 0 0 ∨
        input_value > t.input_data.getD (t.input_data.length - 1) 0) →
      get_correction t input_value =
        .error (out_of_range_message input_value (t.input_data.getD 0 0)
          (t.input_data.getD (t.input_data.length - 1) 0))) ∧
    ((∃ e, get_correction t input_value = .error e) →
      (input_value < t.input_data.getD 0 0 ∨
        input_value > t.input_data.getD (t.input_data.length - 1) 0)) := by
  have hn0 : 0 < t.input_data.length := by omega
  have hdq : (default : ℚ) = 0 := rfl
  have hfirst : pyGet t.input_data 0 = .ok (t.input_data.getD 0 0) := by
    have h := pyGet_ofNat t.input_data 0 hn0
    rw [hdq] at h
    simpa using h
  have hlast : pyGet t.input_data (-1) = .ok (t.input_data.getD (t.input_data.length - 1) 0) := by
    have h := pyGet_neg_one t.input_data hn0
    rw [hdq] at h
    exact h
  constructor
  · intro hout
    unfold get_correction
    simp only [hfirst, hlast]
    rw [if_pos hout]
  · rintro ⟨e, he⟩
    by_contra hout
    rw [not_or] at hout
    obtain ⟨h1, h2⟩ := hout
    obtain ⟨i, hi1, hi2, hi3⟩ :=
      exists_segment t.input_data hn input_value (not_lt.mp h1) (not_lt.mp h2)
    have hok := get_correction_eq_lerp t input_value i hlen hsort hn hi1 hi2 hi3
    rw [hok] at he
    exact Except.noConfusion he

/-- Witness for C1 on the spec scenario-1 table `t0`: query 5 in segment 0
yields x-correction 1/2, and query exactly at breakpoint 20 returns row 2. -/
theorem c1_witness :
    get_correction t0 5 = .ok ⟨1/2, 0, 0, 0, 0, 0⟩ ∧
    get_correction t0 20 = .ok ⟨2, 0, 0, 0, 0, 0⟩ := by
  have h := c1_get_correction_piecewise_linear t0 (by decide) (by decide) (by decide)
  constructor
  · have h1 := h.1 5 0 (by decide) (by decide) (Or.inl (by decide))
    rw [h1]
    norm_num [t0, vec6_add_def, vec6_sub_def, vec6_smul_def]
  · have h2 := h.2 2 (by decide)
    have e : t0.input_data.getD 2 0 = (20 : ℚ) := rfl
    rw [e] at h2
    rw [h2]
    norm_num [t0]

/-- Witness for C5 on `t0`: queries 45 and -1 fail with the range error
naming the bounds 0 and 40. -/
theorem c5_witness :
    get_correction t0 45 = .error (out_of_range_message 45 0 40) ∧
    get_correction t0 (-1) = .error (out_of_range_message (-1) 0 40) := by
  have e0 : t0.input_data.getD 0 0 = (0 : ℚ) := by decide
  have e4 : t0.input_data.getD (t0.input_data.length - 1) 0 = (40 : ℚ) := by decide
  constructor
  · have h := (c5_error_iff_out_of_range t0 45 (by decide) (by decide) (by decide)).1
      (Or.inr (by rw [e4]; norm_num))
    rwa [e0, e4] at h
  · have h := (c5_error_iff_out_of_range t0 (-1) (by decide) (by decide) (by decide)).1
      (Or.inl (by rw [e0]; norm_num))
    rwa [e0, e4] at h
/-- Dispatch with a recognized key runs the handler and then resets the staged
target unless the handler is `do_position_set`. -/
theorem run_command_some (c : Ctrl) (command : Command) (end_positions : List ℚ)
    (h : Handler) (htab : command_table (get_command_key command) = some h) :
    run_command c command end_positions =
      if h = Handler.position_set then (runHandler h c command end_positions).1
      else { (runHandler h c command end_positions).1 with set_position := none } := by
  unfold run_command
  rw [htab]

/-- Dispatch with an unrecognized key returns early, before the reset. -/
theorem run_command_none (c : Ctrl) (command : Command) (end_positions : List ℚ)
    (htab : command_table (get_command_key command) = none) :
    run_command c command end_positions = c := by
  unfold run_command
  rw [htab]

/-- Claim C2 counterexample: the calibration file `lines_dup`, whose input
column is `0, 0` (duplicates, hence not strictly increasing), loads
successfully — `LookupTable.__init__` only rejects input columns that differ
from their ascending sort, which tolerates duplicates. -/
theorem c2_counterexample :
    loadLookupTable lines_dup = .ok tbl_dup ∧
    ¬ tbl_dup.input_data.Pairwise (· < ·) := by decide

/-- Claim C2 (amended): loading fails whenever the input column is not
non-decreasing — equivalently, every successfully loaded table has a
non-decreasing (ascending-sorted, duplicates allowed) input column.  Duplicate
input values are not rejected at load. -/
theorem c2_load_ok_sorted (lines : List String) (t : LookupTable)
    (hok : loadLookupTable lines = .ok t) :
    t.input_data.Sorted (· ≤ ·) := by
  unfold loadLookupTable at hok
  cases hfold : lines.foldlM processLine ⟨none, [], []⟩ with
  | error e =>
    rw [hfold] at hok
    exact Except.noConfusion hok
  | ok st =>
    rw [hfold] at hok
    simp only [ne_eq] at hok
    split at hok
    · exact Except.noConfusion hok
    · rename_i hnn
      rw [not_not] at hnn
      cases hok
      rw [hnn]
      exact List.sorted_insertionSort (· ≤ ·) st.input_data

/-- Witness for the amended C2: the two-row file `lines_two` loads and its
input column is sorted. -/
theorem c2_witness :
    loadLookupTable lines_two = .ok tbl_two ∧ tbl_two.input_data.Sorted (· ≤ ·) :=
  ⟨by decide, c2_load_ok_sorted lines_two tbl_two (by decide)⟩

/-- Claim C7 counterexample: the one-data-row file `lines_one` loads
successfully and constructs a table with a single entry — there is no
minimum-length check in `LookupTable.__init__`. -/
theorem c7_counterexample :
    loadLookupTable lines_one = .ok tbl_one ∧ tbl_one.input_data.length = 1 := by decide

/-- Claim C7 (amended): load performs no minimum-length validation; even a
file with a header and no data rows constructs a (zero-entry) table. -/
theorem c7_no_min_length_check :
    loadLookupTable lines_zero = .ok tbl_zero ∧ tbl_zero.input_data.length = 0 := by decide

/-- Claim C3: dispatching any state-change or substate-change command from a
state (or substate) other than the one its transition requires — including
commands whose (state, command) pair has no entry in the declared transition
table at all — leaves the controller state, offline substate and enabled
substate exactly as they were.  `Inv` characterises the controller states
reachable by the mock controller (staged target only in ENABLED/STATIONARY,
non-neutral enabled substate only in ENABLED). -/
theorem c3_illegal_command_no_state_change (c : Ctrl) (hInv : Inv c)
    (command : Command) (end_positions : List ℚ) :
    (command_table (get_command_key command) = none →
      run_command c command end_positions = c) ∧
    (∀ h, command_table (get_command_key command) = some h →
      ¬ declared_precondition h c →
      (run_command c command end_positions).state = c.state ∧
      (run_command c command end_positions).offline_substate = c.offline_substate ∧
      (run_command c command end_positions).enabled_substate = c.enabled_substate) := by
  constructor
  · exact run_command_none c command end_positions
  · intro h htab hpre
    obtain ⟨e, he⟩ := handler_wrong_state h c command end_positions hInv hpre
    rw [run_command_some c command end_positions h htab, he]
    by_cases hps : h = Handler.position_set
    · rw [if_pos hps]
      exact ⟨rfl, rfl, rfl⟩
    · rw [if_neg hps]
      exact ⟨rfl, rfl, rfl⟩

/-- Witness for C3: SET_STATE/START dispatched in OFFLINE (START requires
STANDBY) leaves state, offline substate and enabled substate unchanged. -/
theorem c3_witness :
    Inv c_off ∧ command_table (get_command_key startCmd) = some Handler.start ∧
    ¬ declared_precondition Handler.start c_off ∧
    (run_command c_off startCmd []).state = c_off.state ∧
    (run_command c_off startCmd []).offline_substate = c_off.offline_substate ∧
    (run_command c_off startCmd []).enabled_substate = c_off.enabled_substate := by
  have h := (c3_illegal_command_no_state_change c_off (by decide) startCmd []).2
    Handler.start (by decide) (by decide)
  exact ⟨by decide, by decide, by decide, h.1, h.2.1, h.2.2⟩

/-- Claim C4 counterexample: the OFFSET command has an unrecognized key, is
not POSITION_SET, and yet dispatching it leaves the previously staged
TargetPosition staged — `run_command` returns early on unrecognized keys,
before the staged-target reset. -/
theorem c4_counterexample :
    offsetCmd.cmd ≠ CommandCode.POSITION_SET ∧
    c_staged.set_position = some ⟨1, 2, 3, 4, 5, 6⟩ ∧
    (run_command c_staged offsetCmd []).set_position = some ⟨1, 2, 3, 4, 5, 6⟩ := by decide

/-- Claim C4 (amended): after dispatch of any *recognized* command whose
handler is not the POSITION_SET handler, the staged TargetPosition is reset to
the unset sentinel regardless of whether the handler succeeded; commands with
unrecognized keys return early and leave the staged target untouched. -/
theorem c4_recognized_non_position_set_resets (c : Ctrl) (command : Command)
    (end_positions : List ℚ) (h : Handler)
    (htab : command_table (get_command_key command) = some h)
    (hns : h ≠ Handler.position_set) :
    (run_command c command end_positions).set_position = none := by
  rw [run_command_some c command end_positions h htab, if_neg hns]

/-- Witness for the amended C4: a (failing) SET_STATE/START dispatched with a
target staged resets the staged target. -/
theorem c4_witness : (run_command c_staged startCmd []).set_position = none :=
  c4_recognized_non_position_set_resets c_staged startCmd [] Handler.start
    (by decide) (by decide)

/-- Claim C6 counterexample: SET_STATE/START dispatched from
ENABLED/STATIONARY with a staged target makes its handler raise (START
requires STANDBY), yet the post-dispatch state is not exactly the pre-dispatch
state: the staged target has been reset to unset. -/
theorem c6_counterexample :
    command_table (get_command_key startCmd) = some Handler.start ∧
    (runHandler Handler.start c_staged startCmd []).2.isSome = true ∧
    c_staged.set_position = some ⟨1, 2, 3, 4, 5, 6⟩ ∧
    (run_command c_staged startCmd []).set_position = none := by decide

/-- Claim C6 (amended): when a dispatched handler raises, the exception is
caught at the dispatch boundary and state, substates, Config, commanded pose,
commanded length and measured pose are exactly as they were before dispatch;
the staged target is additionally reset to unset unless the dispatched handler
was the POSITION_SET handler (in which case it too is unchanged). -/
theorem c6_failed_handler_frame (c : Ctrl) (command : Command)
    (end_positions : List ℚ) (h : Handler)
    (htab : command_table (get_command_key command) = some h)
    (herr : (runHandler h c command end_positions).2.isSome) :
    (run_command c command end_positions).state = c.state ∧
    (run_command c command end_positions).offline_substate = c.offline_substate ∧
    (run_command c command end_positions).enabled_substate = c.enabled_substate ∧
    (run_command c command end_positions).config = c.config ∧
    (run_command c command end_positions).commanded_pos = c.commanded_pos ∧
    (run_command c command end_positions).commanded_length = c.commanded_length ∧
    (run_command c command end_positions).measured_pos = c.measured_pos ∧
    (run_command c command end_positions).set_position =
      (if h = Handler.position_set then c.set_position else none) := by
  have hc := handler_error_fst h c command end_positions herr
  rw [run_command_some c command end_positions h htab]
  by_cases hps : h = Handler.position_set
  · rw [if_pos hps, if_pos hps, hc]
    exact ⟨rfl, rfl, rfl, rfl, rfl, rfl, rfl, rfl⟩
  · rw [if_neg hps, if_neg hps, hc]
    exact ⟨rfl, rfl, rfl, rfl, rfl, rfl, rfl, rfl⟩

/-- Witness for the amended C6: SET_STATE/START failing in OFFLINE leaves
every controller field unchanged apart from the staged-target reset. -/
theorem c6_witness :
    (run_command c_off startCmd []).state = c_off.state ∧
    (run_command c_off startCmd []).offline_substate = c_off.offline_substate ∧
    (run_command c_off startCmd []).enabled_substate = c_off.enabled_substate ∧
    (run_command c_off startCmd []).config = c_off.config ∧
    (run_command c_off startCmd []).commanded_pos = c_off.commanded_pos ∧
    (run_command c_off startCmd []).commanded_length = c_off.commanded_length ∧
    (run_command c_off startCmd []).measured_pos = c_off.measured_pos ∧
    (run_command c_off startCmd []).set_position =
      (if Handler.start = Handler.position_set then c_off.set_position else none) :=
  c6_failed_handler_frame c_off startCmd [] Handler.start (by decide) (by decide)

/-- Claim C8: on a telemetry sampling tick taken in a reachable controller
state (`Inv`), if the enabled substate is MOVING_POINT_TO_POINT and every
actuator reports motion complete, the enabled substate transitions to
STATIONARY; the sampler never changes the state or the offline substate, and
performs no other substate change. -/
theorem c8_sampler_motion_completion (c : Ctrl) (hInv : Inv c) (axes_moving : List Bool) :
    ((c.enabled_substate = EnabledSub.movingPointToPoint ∧
        (axes_moving.map (fun m => !m)).all (fun b => b) = true) →
      (update_telemetry c axes_moving).enabled_substate = EnabledSub.stationary) ∧
    (update_telemetry c axes_moving).state = c.state ∧
    (update_telemetry c axes_moving).offline_substate = c.offline_substate ∧
    (¬(c.enabled_substate = EnabledSub.movingPointToPoint ∧
        (axes_moving.map (fun m => !m)).all (fun b => b) = true) →
      (update_telemetry c axes_moving).enabled_substate = c.enabled_substate) := by
  simp only [update_telemetry]
  by_cases hcond : c.state = CtrlState.enabled ∧
      c.enabled_substate = EnabledSub.movingPointToPoint ∧
      (axes_moving.map (fun m => !m)).all (fun b => b) = true
  · rw [if_pos hcond]
    exact ⟨fun _ => rfl, rfl, rfl, fun hn => absurd ⟨hcond.2.1, hcond.2.2⟩ hn⟩
  · rw [if_neg hcond]
    refine ⟨?_, rfl, rfl, fun _ => rfl⟩
    rintro ⟨hsub, hall⟩
    have hstate : c.state = CtrlState.enabled := by
      refine hInv.2 ?_
      rw [hsub]
      intro hcon
      exact EnabledSub.noConfusion hcon
    exact absurd ⟨hstate, hsub, hall⟩ hcond

/-- Witness for C8: after MOVE_POINT_TO_POINT, a tick on which no actuator
is moving takes the substate from MOVING_POINT_TO_POINT to STATIONARY. -/
theorem c8_witness :
    Inv c_moving ∧ c_moving.enabled_substate = EnabledSub.movingPointToPoint ∧
    (update_telemetry c_moving [false, false, false, false, false, false]).enabled_substate =
      EnabledSub.stationary := by
  refine ⟨by decide, by decide, ?_⟩
  exact (c8_sampler_motion_completion c_moving (by decide) _).1 ⟨by decide, by decide⟩

/-- Claim C9: if a POSITION_SET command is rejected (its handler raised —
wrong state/substate or parameter out of limits), dispatch skips the
post-command reset because the dispatched handler is the POSITION_SET handler,
so the whole controller state — in particular a previously staged
TargetPosition — is left exactly as it was. -/
theorem c9_failed_position_set_preserves_state (c : Ctrl) (command : Command)
    (end_positions : List ℚ)
    (hcmd : command.cmd = CommandCode.POSITION_SET)
    (herr : (runHandler Handler.position_set c command end_positions).2.isSome) :
    run_command c command end_positions = c := by
  have hkey : get_command_key command = CmdKey.single CommandCode.POSITION_SET := by
    unfold get_command_key
    rw [hcmd]
    rw [if_neg (by decide)]
  have htab : command_table (get_command_key command) = some Handler.position_set := by
    rw [hkey]
    rfl
  rw [run_command_some c command end_positions Handler.position_set htab, if_pos rfl,
    handler_error_fst Handler.position_set c command end_positions herr]

/-- Witness for C9: a POSITION_SET rejected for wrong state (DISABLED)
leaves the controller, including the previously staged target, unchanged. -/
theorem c9_witness :
    c_staged_disabled.set_position = some ⟨1, 2, 3, 4, 5, 6⟩ ∧
    (runHandler Handler.position_set c_staged_disabled posSetCmd []).2.isSome = true ∧
    run_command c_staged_disabled posSetCmd [] = c_staged_disabled := by
  refine ⟨by decide, by decide, ?_⟩
  exact c9_failed_position_set_preserves_state c_staged_disabled posSetCmd [] rfl (by decide)

/-- Claim C10: for every controller state, a SET_ENABLED_SUBSTATE command
with first parameter MOVE_LUT (8) resolves in the command table to exactly the
same handler as MOVE_POINT_TO_POINT (1), and dispatching the two commands
yields identical controller states. -/
theorem c10_move_lut_same_as_move_point_to_point (c : Ctrl) (end_positions : List ℚ)
    (p2 p3 p4 p5 p6 : ℚ) :
    command_table (get_command_key ⟨CommandCode.SET_ENABLED_SUBSTATE, 8, p2, p3, p4, p5, p6⟩) =
      command_table (get_command_key ⟨CommandCode.SET_ENABLED_SUBSTATE, 1, p2, p3, p4, p5, p6⟩) ∧
    run_command c ⟨CommandCode.SET_ENABLED_SUBSTATE, 8, p2, p3, p4, p5, p6⟩ end_positions =
      run_command c ⟨CommandCode.SET_ENABLED_SUBSTATE, 1, p2, p3, p4, p5, p6⟩ end_positions := by
  have h8 : get_command_key ⟨CommandCode.SET_ENABLED_SUBSTATE, 8, p2, p3, p4, p5, p6⟩ =
      CmdKey.pair CommandCode.SET_ENABLED_SUBSTATE (pyInt 8) := rfl
  have h1 : get_command_key ⟨CommandCode.SET_ENABLED_SUBSTATE, 1, p2, p3, p4, p5, p6⟩ =
      CmdKey.pair CommandCode.SET_ENABLED_SUBSTATE (pyInt 1) := rfl
  have t8 : command_table (CmdKey.pair CommandCode.SET_ENABLED_SUBSTATE (pyInt 8)) =
      some Handler.move_point_to_point := rfl
  have t1 : command_table (CmdKey.pair CommandCode.SET_ENABLED_SUBSTATE (pyInt 1)) =
      some Handler.move_point_to_point := rfl
  constructor
  · rw [h8, h1, t8, t1]
  · unfold run_command
    rw [h8, h1, t8, t1]
    simp only [runHandler, do_move_point_to_point]
/-- `set_state` puts a non-neutral enabled substate in place only when the
new state is ENABLED. -/
theorem set_state_substate (c : Ctrl) (s : CtrlState)
    (hne : (set_state c s).enabled_substate ≠ EnabledSub.zero) :
    (set_state c s).state = CtrlState.enabled := by
  unfold set_state at hne ⊢
  by_cases hs : s = CtrlState.enabled
  · simp [hs]
  · simp [hs] at hne

/-- Every handler preserves the substate half of `Inv` on the state it
returns (before the dispatch-level staged-target reset). -/
theorem handler_fst_substate (hd : Handler) (c : Ctrl) (command : Command)
    (end_positions : List ℚ) (h : Inv c)
    (hne : (runHandler hd c command end_positions).1.enabled_substate ≠ EnabledSub.zero) :
    (runHandler hd c command end_positions).1.state = CtrlState.enabled := by
  cases hd
  case start =>
    simp only [runHandler, do_start, assert_state_none_none] at hne ⊢
    by_cases hs : c.state = CtrlState.standby
    · simp only [if_pos hs] at hne ⊢
      exact set_state_substate c CtrlState.disabled hne
    · simp only [if_neg hs] at hne ⊢
      exact h.2 hne
  case enable =>
    simp only [runHandler, do_enable, assert_state_none_none] at hne ⊢
    by_cases hs : c.state = CtrlState.disabled
    · simp only [if_pos hs] at hne ⊢
      exact set_state_substate c CtrlState.enabled hne
    · simp only [if_neg hs] at hne ⊢
      exact h.2 hne
  case standby =>
    simp only [runHandler, do_standby, assert_state_none_none] at hne ⊢
    by_cases hs : c.state = CtrlState.disabled
    · simp only [if_pos hs] at hne ⊢
      exact set_state_substate c CtrlState.standby hne
    · simp only [if_neg hs] at hne ⊢
      exact h.2 hne
  case disable =>
    simp only [runHandler, do_disable, assert_state_none_none] at hne ⊢
    by_cases hs : c.state = CtrlState.enabled
    · simp only [if_pos hs] at hne ⊢
      exact set_state_substate c CtrlState.disabled hne
    · simp only [if_neg hs] at hne ⊢
      exact h.2 hne
  case exit =>
    simp only [runHandler, do_exit, assert_state_none_none] at hne ⊢
    by_cases hs : c.state = CtrlState.standby
    · simp only [if_pos hs] at hne ⊢
      exact set_state_substate c CtrlState.offline hne
    · simp only [if_neg hs] at hne ⊢
      exact h.2 hne
  case clear_error =>
    simp only [runHandler, do_clear_error] at hne ⊢
    by_cases hcond : c.state ≠ CtrlState.fault ∧ c.state ≠ CtrlState.offline
    · simp only [if_pos hcond] at hne ⊢
      exact h.2 hne
    · simp only [if_neg hcond] at hne ⊢
      exact set_state_substate c CtrlState.offline hne
  case enter_control =>
    simp only [runHandler, do_enter_control, assert_state_offline_available] at hne ⊢
    by_cases h1 : c.state = CtrlState.offline
    · by_cases h2 : c.offline_substate = OfflineSub.available
      · simp only [if_pos h1, if_pos h2] at hne ⊢
        exact set_state_substate c CtrlState.standby hne
      · simp only [if_pos h1, if_neg h2] at hne ⊢
        exact h.2 hne
    · simp only [if_neg h1] at hne ⊢
      exact h.2 hne
  case move_point_to_point =>
    simp only [runHandler, do_move_point_to_point] at hne ⊢
    cases hsp : c.set_position with
    | none =>
      rw [hsp] at hne
      exact h.2 hne
    | some sp =>
      rw [hsp] at hne
      exact (h.1 (by rw [hsp]; rfl)).1
  case stop =>
    simp only [runHandler, do_stop, assert_state_none_none] at hne ⊢
    by_cases hs : c.state = CtrlState.enabled
    · simp only [if_pos hs] at hne ⊢
      exact hs
    · simp only [if_neg hs] at hne ⊢
      exact h.2 hne
  case position_set =>
    simp only [runHandler, do_position_set, assert_stationary_eq] at hne ⊢
    by_cases hs1 : c.state = CtrlState.enabled
    · by_cases hs2 : c.enabled_substate = EnabledSub.stationary
      · simp only [if_pos hs1, if_pos hs2] at hne ⊢
        split
        · exact hs1
        · exact hs1
      · simp only [if_pos hs1, if_neg hs2] at hne ⊢
        exact h.2 hne
    · simp only [if_neg hs1] at hne ⊢
      exact h.2 hne
  case set_pivotpoint =>
    simp only [runHandler, do_set_pivotpoint, assert_stationary_eq] at hne ⊢
    by_cases hs1 : c.state = CtrlState.enabled
    · by_cases hs2 : c.enabled_substate = EnabledSub.stationary
      · simp only [if_pos hs1, if_pos hs2] at hne ⊢
        exact hs1
      · simp only [if_pos hs1, if_neg hs2] at hne ⊢
        exact h.2 hne
    · simp only [if_neg hs1] at hne ⊢
      exact h.2 hne
  case config_accel =>
    simp only [runHandler, do_config_accel, assert_stationary_eq] at hne ⊢
    by_cases hs1 : c.state = CtrlState.enabled
    · by_cases hs2 : c.enabled_substate = EnabledSub.stationary
      · simp only [if_pos hs1, if_pos hs2] at hne ⊢
        split
        · exact hs1
        · exact hs1
      · simp only [if_pos hs1, if_neg hs2] at hne ⊢
        exact h.2 hne
    · simp only [if_neg hs1] at hne ⊢
      exact h.2 hne
  case config_limits =>
    simp only [runHandler, do_config_limits, assert_stationary_eq] at hne ⊢
    by_cases hs1 : c.state = CtrlState.enabled
    · by_cases hs2 : c.enabled_substate = EnabledSub.stationary
      · simp only [if_pos hs1, if_pos hs2] at hne ⊢
        split
        · exact hs1
        · exact hs1
      · simp only [if_pos hs1, if_neg hs2] at hne ⊢
        exact h.2 hne
    · simp only [if_neg hs1] at hne ⊢
      exact h.2 hne
  case config_vel =>
    simp only [runHandler, do_config_vel, assert_stationary_eq] at hne ⊢
    by_cases hs1 : c.state = CtrlState.enabled
    · by_cases hs2 : c.enabled_substate = EnabledSub.stationary
      · simp only [if_pos hs1, if_pos hs2] at hne ⊢
        split
        · exact hs1
        · exact hs1
      · simp only [if_pos hs1, if_neg hs2] at hne ⊢
        exact h.2 hne
    · simp only [if_neg hs1] at hne ⊢
      exact h.2 hne

/-- The freshly constructed mock controller satisfies `Inv`. -/
theorem Inv_initial (env : Envelope) (s : CtrlState) : Inv (initial_ctrl env s) := by
  unfold Inv initial_ctrl set_state
  cases s <;> simp

/-- Every command dispatch and every telemetry tick preserves `Inv`. -/
theorem Inv_step (c : Ctrl) (h : Inv c) (e : Event) : Inv (step c e) := by
  cases e with
  | tick axes_moving =>
    simp only [step, update_telemetry]
    split
    · rename_i hcond
      exact ⟨fun _ => ⟨hcond.1, rfl⟩, fun _ => hcond.1⟩
    · exact ⟨h.1, h.2⟩
  | command command end_positions =>
    simp only [step]
    cases htab : command_table (get_command_key command) with
    | none =>
      rw [run_command_none c command end_positions htab]
      exact h
    | some hd =>
      rw [run_command_some c command end_positions hd htab]
      by_cases hps : hd = Handler.position_set
      · rw [if_pos hps]
        subst hps
        simp only [runHandler, do_position_set, assert_stationary_eq]
        by_cases hs1 : c.state = CtrlState.enabled
        · by_cases hs2 : c.enabled_substate = EnabledSub.stationary
          · simp only [if_pos hs1, if_pos hs2]
            split
            · exact h
            · exact ⟨fun _ => ⟨hs1, hs2⟩, h.2⟩
          · simp only [if_pos hs1, if_neg hs2]
            exact h
        · simp only [if_neg hs1]
          exact h
      · rw [if_neg hps]
        refine ⟨fun hsp => absurd hsp (by simp), ?_⟩
        intro hne
        exact handler_fst_substate hd c command end_positions h hne

/-- `Inv` is preserved by any event sequence. -/
theorem Inv_run_events (c : Ctrl) (h : Inv c) (events : List Event) :
    Inv (run_events c events) := by
  unfold run_events
  induction events generalizing c with
  | nil => exact h
  | cons e rest ih =>
    rw [List.foldl_cons]
    exact ih (step c e) (Inv_step c h e)

/-- Every state the mock controller can reach — any event sequence from any
construction-time configuration and any initial state — satisfies `Inv`. -/
theorem Inv_reachable (env : Envelope) (s : CtrlState) (events : List Event) :
    Inv (run_events (initial_ctrl env s) events) :=
  Inv_run_events (initial_ctrl env s) (Inv_initial env s) events
end TsHexapod
